import Mathlib

/-!
Shallow embedding of the Flipzy Listing microservice (`src/main.py`,
`src/db.py`, `src/models/*.py`) and proofs about its publish-job workflow,
CRUD endpoints, validation and ETag logic.

Modelling conventions:
* UUIDs are abstracted to `Nat` (they are opaque identifiers; `uuid4`
  freshness becomes an explicit hypothesis where the code relies on it).
* `datetime` timestamps are abstracted to `Nat`; each call of
  `datetime.utcnow()` in the code becomes an explicit parameter of the
  embedded function, and `isoformat` becomes decimal rendering.
* The SQL tables behind SQLAlchemy become lists of rows keyed by `id`;
  the in-memory `jobs` dict becomes an association list.
* FastAPI responses become explicit response records carrying the status
  code, optional body and the headers the code sets.
-/

namespace Listing

/-- Fixed-point decimal value `mantissa / 10 ^ places`, the embedding of
Python `Decimal` as used for item prices (`Numeric(10, 2)` column,
pydantic `Decimal` fields). `places` is the number of digits after the
decimal point carried by the literal, which is what pydantic's
`decimal_places` constraint inspects. -/
structure Dec where
  mantissa : Int
  places : Nat
deriving Repr, DecidableEq

/-- JobStatus enum from `src/main.py` lines 42-46. -/
inductive JobStatus where
  | pending
  | in_progress
  | completed
  | failed
deriving Repr, DecidableEq

/-- Serialized string value of a `JobStatus`, as the `str`-valued enum
members of `class JobStatus(str, Enum)` in `src/main.py`. -/
def JobStatus.value : JobStatus → String
  | .pending => "pending"
  | .in_progress => "in_progress"
  | .completed => "completed"
  | .failed => "failed"

/-- ItemStatus enum from `src/models/item.py`. -/
inductive ItemStatus where
  | active
  | hidden
  | sold
deriving Repr, DecidableEq

/-- ItemCondition enum from `src/models/item.py`. -/
inductive ItemCondition where
  | new
  | used
  | refurbished
deriving Repr, DecidableEq

/-- MediaType enum from `src/models/media.py`. -/
inductive MediaType where
  | image
  | video
deriving Repr, DecidableEq

/-- Job record (`class Job(BaseModel)`, `src/main.py` lines 49-58). -/
structure Job where
  id : Nat
  item_id : Nat
  status : JobStatus
  created_at : Nat
  updated_at : Nat
  result_message : Option String
deriving Repr, DecidableEq

/-- Row of the `categories` table (`CategoryORM`, `src/db.py`). -/
structure CategoryRec where
  id : Nat
  name : String
  description : String
  created_at : Nat
  updated_at : Nat
deriving Repr, DecidableEq

/-- Row of the `media` table (`MediaORM`, `src/db.py`). -/
structure MediaRec where
  id : Nat
  url : String
  type : MediaType
  alt_text : Option String
  is_primary : Bool
  created_at : Nat
  updated_at : Nat
deriving Repr, DecidableEq

/-- Row of the `items` table together with its `item_media` association
rows (`ItemORM`, `src/db.py`): `media_ids` is the list of media ids
linked to this item through the `item_media` join table. -/
structure ItemRec where
  id : Nat
  name : String
  description : String
  status : ItemStatus
  condition : ItemCondition
  price : Dec
  category_id : Nat
  media_ids : List Nat
  created_at : Nat
  updated_at : Nat
deriving Repr, DecidableEq

/-- Relational store: the three SQL tables of `src/db.py`. -/
structure Store where
  categories : List CategoryRec
  mediaRows : List MediaRec
  items : List ItemRec
deriving Repr, DecidableEq

/-- Generic `SELECT ... WHERE id = k ... .first()` over a list of rows. -/
def findRow {α : Type} (key : α → Nat) : List α → Nat → Option α
  | [], _ => none
  | a :: t, k => if key a = k then some a else findRow key t k

/-- Generic in-place row mutation (`db_item.field = ...; db.commit()`):
every row with the given id is replaced by `f` of it. -/
def updateRow {α : Type} (key : α → Nat) (l : List α) (k : Nat) (f : α → α) : List α :=
  l.map (fun a => if key a = k then f a else a)

/-- Generic `db.delete(row); db.commit()`. -/
def deleteRow {α : Type} (key : α → Nat) (l : List α) (k : Nat) : List α :=
  l.filter (fun a => key a ≠ k)

/-- Lookup in an association list (`dict.get`). -/
def lookupEntry {α : Type} : List (Nat × α) → Nat → Option α
  | [], _ => none
  | (k', v) :: t, k => if k' = k then some v else lookupEntry t k

/-- Assignment into an association list (`dict[k] = v`). -/
def setEntry {α : Type} : List (Nat × α) → Nat → α → List (Nat × α)
  | [], k, v => [(k, v)]
  | (k', v') :: t, k, v => if k' = k then (k, v) :: t else (k', v') :: setEntry t k v

def Store.findItem (s : Store) (iid : Nat) : Option ItemRec :=
  findRow ItemRec.id s.items iid

def Store.findCategory (s : Store) (cid : Nat) : Option CategoryRec :=
  findRow CategoryRec.id s.categories cid

def Store.findMedia (s : Store) (mid : Nat) : Option MediaRec :=
  findRow MediaRec.id s.mediaRows mid

/-- Process state: the relational store, the in-memory `jobs` dict
(`src/main.py` line 62), and the framework's background-task queue.
`scheduled` holds job ids passed to `background_tasks.add_task` whose
worker has not started; `running` holds job ids whose worker has executed
its first phase (marking the job in progress) but not yet its database
phase. -/
structure SysState where
  store : Store
  jobs : List (Nat × Job)
  scheduled : List Nat
  running : List Nat
deriving Repr, DecidableEq

/-- Empty process state at startup. -/
def initState : SysState :=
  { store := { categories := [], mediaRows := [], items := [] }
    jobs := []
    scheduled := []
    running := [] }

/-!
Publish worker, `src/main.py` lines 68-106. The code runs in two phases:
lines 73-80 mark the job in progress, lines 85-106 perform the database
work and finalize the job. Phase two of the source keeps using the `job`
object it looked up at line 73; the embedding re-reads the registry entry
instead, which holds exactly the record phase one wrote (no operation
ever deletes a registry entry, and `item_id` is never modified).
-/

/-- Lines 73-80 of `run_publish_job`: look the job up (terminating
silently if absent) and persist it back with status IN_PROGRESS and a
fresh `updated_at`. -/
def worker_start (s : SysState) (jid t : Nat) : SysState :=
  match lookupEntry s.jobs jid with
  | none => s
  | some job =>
      let job1 := { job with status := JobStatus.in_progress, updated_at := t }
      { s with jobs := setEntry s.jobs jid job1 }

/-- Lines 85-106 of `run_publish_job`: re-resolve the item; if it is gone
mark the job FAILED, otherwise set the item ACTIVE with a fresh timestamp,
commit, and mark the job COMPLETED. -/
def worker_finish (s : SysState) (jid t : Nat) : SysState :=
  match lookupEntry s.jobs jid with
  | none => s
  | some job =>
      match s.store.findItem job.item_id with
      | none =>
          let job' := { job with status := JobStatus.failed
                                 result_message := some "Item no longer exists."
                                 updated_at := t }
          { s with jobs := setEntry s.jobs jid job' }
      | some _ =>
          let items' := updateRow ItemRec.id s.store.items job.item_id
            (fun it => { it with status := ItemStatus.active, updated_at := t })
          let job' := { job with status := JobStatus.completed
                                 result_message := some "Item published successfully."
                                 updated_at := t }
          { s with store := { s.store with items := items' }
                   jobs := setEntry s.jobs jid job' }

/-- Whole `run_publish_job` body (lines 68-106): phase one followed by
phase two. `t1` and `t2` are the values of the `datetime.utcnow()` calls
before and after the simulated work. -/
def run_publish_job (s : SysState) (jid t1 t2 : Nat) : SysState :=
  worker_finish (worker_start s jid t1) jid t2

/-- Fault kinds the database layer can raise inside the `try` block of
`run_publish_job` (the item query at line 87 or the commit at line 98). -/
inductive DbFault where
  | queryFault (detail : String)
  | commitFault (detail : String)
deriving Repr, DecidableEq

/-- Detail string carried by a database fault. -/
def DbFault.detail : DbFault → String
  | .queryFault d => d
  | .commitFault d => d

/-- Lines 68-106 of `run_publish_job` with a fault injected into the
database phase. The `try` block at lines 86-106 has a `finally` clause
(closing the session) but no `except` clause, so a fault raised inside it
propagates out of the function after the session is closed; the first
component is the escaping exception detail (`none` when no fault fires).
The registry write of phase one (lines 77-80) has already happened and is
not undone. -/
def run_publish_job_fault (s : SysState) (jid t1 t2 : Nat) (fault : Option DbFault) :
    Option String × SysState :=
  match lookupEntry s.jobs jid with
  | none => (none, s)
  | some job =>
      let job1 := { job with status := JobStatus.in_progress, updated_at := t1 }
      let s1 := { s with jobs := setEntry s.jobs jid job1 }
      match fault with
      | some f => (some f.detail, s1)
      | none => (none, worker_finish s1 jid t2)

/-!
SHA-256 (FIPS 180-4), the embedding of `hashlib.sha256` used by
`generate_item_etag` in `src/main.py`. Words are `Nat`s reduced mod
`2 ^ 32` by `w32`; messages are lists of byte values.
-/

def w32 (n : Nat) : Nat := n % 4294967296

def rotr32 (x n : Nat) : Nat := w32 ((x >>> n) ||| (x <<< (32 - n)))

def shaCh (x y z : Nat) : Nat := (x &&& y) ^^^ ((x ^^^ 4294967295) &&& z)

def shaMaj (x y z : Nat) : Nat := (x &&& y) ^^^ (x &&& z) ^^^ (y &&& z)

def shaS0 (x : Nat) : Nat := rotr32 x 2 ^^^ rotr32 x 13 ^^^ rotr32 x 22

def shaS1 (x : Nat) : Nat := rotr32 x 6 ^^^ rotr32 x 11 ^^^ rotr32 x 25

def shas0 (x : Nat) : Nat := rotr32 x 7 ^^^ rotr32 x 18 ^^^ (x >>> 3)

def shas1 (x : Nat) : Nat := rotr32 x 17 ^^^ rotr32 x 19 ^^^ (x >>> 10)

structure Hash8 where
  a : Nat
  b : Nat
  c : Nat
  d : Nat
  e : Nat
  f : Nat
  g : Nat
  h : Nat
deriving Repr, DecidableEq

def initH : Hash8 :=
  ⟨1779033703, 3144134277, 1013904242, 2773480762,
   1359893119, 2600822924, 528734635, 1541459225⟩

def shaK : List Nat :=
  [1116352408, 1899447441, 3049323471, 3921009573, 961987163, 1508970993, 2453635748, 2870763221,
   3624381080, 310598401, 607225278, 1426881987, 1925078388, 2162078206, 2614888103, 3248222580,
   3835390401, 4022224774, 264347078, 604807628, 770255983, 1249150122, 1555081692, 1996064986,
   2554220882, 2821834349, 2952996808, 3210313671, 3336571891, 3584528711, 113926993, 338241895,
   666307205, 773529912, 1294757372, 1396182291, 1695183700, 1986661051, 2177026350, 2456956037,
   2730485921, 2820302411, 3259730800, 3345764771, 3516065817, 3600352804, 4094571909, 275423344,
   430227734, 506948616, 659060556, 883997877, 958139571, 1322822218, 1537002063, 1747873779,
   1955562222, 2024104815, 2227730452, 2361852424, 2428436474, 2756734187, 3204031479, 3329325298]

def padMessage (ms : List Nat) : List Nat :=
  let L := ms.length * 8
  let zeros := (119 - ms.length % 64) % 64
  ms ++ 128 :: List.replicate zeros 0 ++
    [L / 72057594037927936 % 256, L / 281474976710656 % 256,
     L / 1099511627776 % 256, L / 4294967296 % 256,
     L / 16777216 % 256, L / 65536 % 256, L / 256 % 256, L % 256]

def bytesToWords : List Nat → List Nat
  | b0 :: b1 :: b2 :: b3 :: rest =>
      (b0 * 16777216 + b1 * 65536 + b2 * 256 + b3) :: bytesToWords rest
  | _ => []

def chunks64 : List Nat → List (List Nat)
  | [] => []
  | a :: t => ((a :: t).take 64) :: chunks64 ((a :: t).drop 64)
termination_by l => l.length
decreasing_by simp [List.length_drop]; omega

def scheduleStep (rev : List Nat) : Nat :=
  w32 (shas1 (rev.getD 1 0) + rev.getD 6 0 + shas0 (rev.getD 14 0) + rev.getD 15 0)

def extendSchedule : Nat → List Nat → List Nat
  | 0, rev => rev
  | n + 1, rev => extendSchedule n (scheduleStep rev :: rev)

def messageSchedule (ws : List Nat) : List Nat :=
  (extendSchedule 48 ws.reverse).reverse

def shaRound (st : Hash8) (kw : Nat × Nat) : Hash8 :=
  let t1 := w32 (st.h + shaS1 st.e + shaCh st.e st.f st.g + kw.1 + kw.2)
  let t2 := w32 (shaS0 st.a + shaMaj st.a st.b st.c)
  { a := w32 (t1 + t2), b := st.a, c := st.b, d := st.c
    e := w32 (st.d + t1), f := st.e, g := st.f, h := st.g }

def compressBlock (st : Hash8) (block : List Nat) : Hash8 :=
  let ws := messageSchedule (bytesToWords block)
  let r := (shaK.zip ws).foldl shaRound st
  { a := w32 (st.a + r.a), b := w32 (st.b + r.b), c := w32 (st.c + r.c)
    d := w32 (st.d + r.d), e := w32 (st.e + r.e), f := w32 (st.f + r.f)
    g := w32 (st.g + r.g), h := w32 (st.h + r.h) }

def sha256words (ms : List Nat) : Hash8 :=
  (chunks64 (padMessage ms)).foldl compressBlock initH

def hexChar (n : Nat) : Char :=
  if n < 10 then Char.ofNat (48 + n) else Char.ofNat (87 + n)

def wordHexChars (w : Nat) : List Char :=
  [hexChar (w / 268435456 % 16), hexChar (w / 16777216 % 16),
   hexChar (w / 1048576 % 16), hexChar (w / 65536 % 16),
   hexChar (w / 4096 % 16), hexChar (w / 256 % 16),
   hexChar (w / 16 % 16), hexChar (w % 16)]

def sha256hexdigest (ms : List Nat) : String :=
  let hh := sha256words ms
  String.mk (List.flatten ([hh.a, hh.b, hh.c, hh.d, hh.e, hh.f, hh.g, hh.h].map wordHexChars))

def utf8EncodeChar (n : Nat) : List Nat :=
  if n < 128 then [n]
  else if n < 2048 then [192 + n / 64, 128 + n % 64]
  else if n < 65536 then [224 + n / 4096, 128 + n / 64 % 64, 128 + n % 64]
  else [240 + n / 262144, 128 + n / 4096 % 64, 128 + n / 64 % 64, 128 + n % 64]

def utf8Bytes (s : String) : List Nat :=
  List.flatten (s.data.map (fun c => utf8EncodeChar c.toNat))

/-- Response of the publish endpoint: status code, optional Job body and
optional `Location` header. -/
structure JobResponse where
  statusCode : Nat
  body : Option Job
  location : Option String
deriving Repr, DecidableEq

/-- POST `/items/{item_id}/publish` (`publish_item`, `src/main.py` lines
575-606). `jid` is the `uuid4()` result and `now` the `utcnow()` result.
The 202 branch stores the new job in the registry and passes its id to
`background_tasks.add_task`, modelled by pushing it onto `scheduled`. -/
def publish_item (s : SysState) (iid jid now : Nat) : JobResponse × SysState :=
  match s.store.findItem iid with
  | none => ({ statusCode := 404, body := none, location := none }, s)
  | some _ =>
      let job : Job :=
        { id := jid
          item_id := iid
          status := JobStatus.pending
          created_at := now
          updated_at := now
          result_message := some "Publish job accepted." }
      let s' := { s with jobs := setEntry s.jobs jid job
                         scheduled := jid :: s.scheduled }
      ({ statusCode := 202, body := some job, location := some ("/jobs/" ++ toString jid) }, s')

/-- Response of the job poll endpoint. -/
structure GetJobResponse where
  statusCode : Nat
  body : Option Job
deriving Repr, DecidableEq

/-- GET `/jobs/{job_id}` (`get_job`, `src/main.py` lines 609-617): pure
read of the registry, no state change. -/
def get_job (s : SysState) (jid : Nat) : GetJobResponse × SysState :=
  match lookupEntry s.jobs jid with
  | none => ({ statusCode := 404, body := none }, s)
  | some j => ({ statusCode := 200, body := some j }, s)

/-- Rendering of a timestamp for the ETag input. Timestamps are abstracted
to `Nat`, so `datetime.isoformat()` becomes decimal rendering — both are
injective encodings of the timestamp. -/
def isoformat (t : Nat) : String := toString t

/-- ETag helper (`generate_item_etag`, `src/main.py` lines 375-381): a
quoted SHA-256 hex digest of `"{item.id}:{item.updated_at.isoformat()}"`
encoded as UTF-8. -/
def generate_item_etag (it : ItemRec) : String :=
  "\"" ++ sha256hexdigest (utf8Bytes (toString it.id ++ ":" ++ isoformat it.updated_at)) ++ "\""

/-!
Pydantic validation of the `price` field (`src/models/item.py`). A `Dec`
value `m / 10 ^ p` satisfies `ge=Decimal("0.01")` iff `100 * m ≥ 10 ^ p`,
satisfies `le=Decimal("999999.99")` iff `100 * m ≤ 99999999 * 10 ^ p`,
and `decimal_places=2` inspects `p`.
-/

/-- Price constraint of `ItemUpdate.price` (and of `ItemBase.price`):
`ge=Decimal("0.01"), le=Decimal("999999.99"), decimal_places=2`. -/
def itemUpdate_price_ok (d : Dec) : Bool :=
  decide (d.places ≤ 2)
    && decide ((10 : Int) ^ d.places ≤ 100 * d.mantissa)
    && decide (100 * d.mantissa ≤ 99999999 * (10 : Int) ^ d.places)

/-- Price constraint of `ItemCreate.price`: the field is declared as a
bare `price: Decimal` with no `Field` constraints, so every decimal
passes validation. -/
def itemCreate_price_ok (_ : Dec) : Bool :=
  true

/-- Spec-side predicate, for comparison with the code's validators:
price within `(0, 999999.99]` with at most 2 decimal places, following
the spec sentence `price (fixed-point decimal, 2 places, range
(0, 999999.99])`. -/
def specPriceInRange (d : Dec) : Prop :=
  d.places ≤ 2 ∧ 0 < d.mantissa ∧ 100 * d.mantissa ≤ 99999999 * (10 : Int) ^ d.places

instance (d : Dec) : Decidable (specPriceInRange d) := by
  unfold specPriceInRange
  infer_instance
/-- Client-facing item representation (`ItemRead`, `src/models/item.py`):
it inherits `ItemBase`, whose `owner_user_id` is a required field with no
default. The `category`/`media` sub-objects are flattened to ids and the
`links` field is omitted here, because (see `item_to_read`) every
construction fails validation before they could matter. -/
structure ItemRead where
  owner_user_id : Nat
  id : Nat
  name : String
  description : String
  status : ItemStatus
  condition : ItemCondition
  price : Dec
  category_id : Nat
  media_ids : List Nat
  created_at : Nat
  updated_at : Nat
deriving Repr, DecidableEq

/-- Pydantic validation of an `ItemRead` construction: `owner_user_id`
is required (`Field(...)` on `ItemBase` with no default), and the
inherited `price` field carries the `ge`/`le`/`decimal_places`
constraints. Returns `none` when validation fails — the raised
`ValidationError`. -/
def validate_item_read (owner : Option Nat) (it : ItemRec) : Option ItemRead :=
  match owner with
  | none => none
  | some u =>
      if itemUpdate_price_ok it.price then
        some { owner_user_id := u, id := it.id, name := it.name
               description := it.description, status := it.status
               condition := it.condition, price := it.price
               category_id := it.category_id, media_ids := it.media_ids
               created_at := it.created_at, updated_at := it.updated_at }
      else none

/-- Mapping helper `item_to_read` (`src/main.py` lines 150-165): builds
the `ItemRead` from the row but never supplies the required
`owner_user_id` keyword, so pydantic always raises a `ValidationError`.
The omission is modelled by passing `none` for the owner field. -/
def item_to_read (it : ItemRec) : Option ItemRead :=
  validate_item_read none it

/-- Response of GET `/items/{item_id}`: status code, optional body (the
item row standing for its mapped `ItemRead` representation) and the
optional `ETag` header the handler sets. -/
structure GetItemResponse where
  statusCode : Nat
  body : Option ItemRec
  etag : Option String
deriving Repr, DecidableEq

/-- GET `/items/{item_id}` (`get_item`, `src/main.py` lines 481-501):
404 when absent; otherwise the handler calls `item_to_read` (line 492),
whose `ValidationError` escapes as HTTP 500 before the ETag code at line
494 ever runs. The 304/200 branches are kept as the source writes them
(the ETag hashes `item.id` and `item.updated_at` of the mapped
representation, copied verbatim from the row), but they are unreachable.
Pure read, no state change. -/
def get_item (s : SysState) (iid : Nat) (ifNoneMatch : Option String) :
    GetItemResponse × SysState :=
  match s.store.findItem iid with
  | none => ({ statusCode := 404, body := none, etag := none }, s)
  | some it =>
      match item_to_read it with
      | none => ({ statusCode := 500, body := none, etag := none }, s)
      | some _ =>
          if ifNoneMatch = some (generate_item_etag it) then
            ({ statusCode := 304, body := none, etag := none }, s)
          else
            ({ statusCode := 200, body := some it, etag := some (generate_item_etag it) }, s)

/-- Response carrying no body (DELETE endpoints). -/
structure DeleteResponse where
  statusCode : Nat
deriving Repr, DecidableEq

/-- Category payload (`CategoryCreate`, `src/models/category.py`). -/
structure CategoryCreatePayload where
  name : String
  description : String
deriving Repr, DecidableEq

/-- Response of the category endpoints. -/
structure CategoryResponse where
  statusCode : Nat
  body : Option CategoryRec
  location : Option String
deriving Repr, DecidableEq

/-- POST `/categories` (`create_category`, `src/main.py` lines 193-204).
`newId` is the ORM `uuid4` default, `now` the `utcnow` default of the
timestamp columns. -/
def create_category (s : SysState) (p : CategoryCreatePayload) (newId now : Nat) :
    CategoryResponse × SysState :=
  let row : CategoryRec :=
    { id := newId, name := p.name, description := p.description
      created_at := now, updated_at := now }
  ({ statusCode := 201, body := some row, location := some ("/categories/" ++ toString newId) },
   { s with store := { s.store with categories := s.store.categories ++ [row] } })

/-- Partial category update (`CategoryUpdate`). A field is `some v` when
the request supplies the non-null value `v` and `none` when it is absent;
requests supplying an explicit JSON null would write SQL NULL into a
non-nullable column and are outside this model. -/
structure CategoryUpdatePayload where
  name : Option String
  description : Option String
deriving Repr, DecidableEq

/-- PATCH `/categories/{category_id}` (`update_category`, lines 236-251). -/
def update_category (s : SysState) (cid : Nat) (p : CategoryUpdatePayload) (now : Nat) :
    CategoryResponse × SysState :=
  match s.store.findCategory cid with
  | none => ({ statusCode := 404, body := none, location := none }, s)
  | some c =>
      let c' := { c with name := p.name.getD c.name
                         description := p.description.getD c.description
                         updated_at := now }
      ({ statusCode := 200, body := some c', location := none },
       { s with store :=
          { s.store with categories := updateRow CategoryRec.id s.store.categories cid (fun _ => c') } })

/-- DELETE `/categories/{category_id}` (`delete_category`, `src/main.py`
lines 254-275): 404 when absent, 400 when still referenced by an item
(`ItemORM.category_id == db_cat.id`), otherwise delete and 204. -/
def delete_category (s : SysState) (cid : Nat) : DeleteResponse × SysState :=
  match s.store.findCategory cid with
  | none => ({ statusCode := 404 }, s)
  | some _ =>
      if s.store.items.any (fun it => it.category_id == cid) then
        ({ statusCode := 400 }, s)
      else
        ({ statusCode := 204 },
         { s with store :=
            { s.store with categories := deleteRow CategoryRec.id s.store.categories cid } })

/-- Media payload (`MediaCreate`, `src/models/media.py`). -/
structure MediaCreatePayload where
  url : String
  type : MediaType
  alt_text : Option String
  is_primary : Bool
deriving Repr, DecidableEq

/-- Response of the media endpoints. -/
structure MediaResponse where
  statusCode : Nat
  body : Option MediaRec
  location : Option String
deriving Repr, DecidableEq

/-- POST `/media` (`create_media`, `src/main.py` lines 281-294). -/
def create_media (s : SysState) (p : MediaCreatePayload) (newId now : Nat) :
    MediaResponse × SysState :=
  let row : MediaRec :=
    { id := newId, url := p.url, type := p.type, alt_text := p.alt_text
      is_primary := p.is_primary, created_at := now, updated_at := now }
  ({ statusCode := 201, body := some row, location := some ("/media/" ++ toString newId) },
   { s with store := { s.store with mediaRows := s.store.mediaRows ++ [row] } })

/-- Partial media update (`MediaUpdate`): outer `Option` is presence of
the field in the request body (pydantic `exclude_unset`), inner `Option`
distinguishes an explicit JSON null from a value. -/
structure MediaUpdatePayload where
  url : Option (Option String)
  type : Option (Option MediaType)
  alt_text : Option (Option String)
  is_primary : Option (Option Bool)
deriving Repr, DecidableEq

/-- Assignment pattern `if "f" in data and update.f is not None: row.f = update.f`
used by the PATCH handlers. -/
def applyScalarField {α : Type} (cur : α) : Option (Option α) → α
  | some (some v) => v
  | _ => cur

/-- PATCH `/media/{media_id}` (`update_media`, `src/main.py` lines
320-339). `alt_text` is set whenever present, even to null (its column is
nullable); the other fields only when present and non-null. -/
def update_media (s : SysState) (mid : Nat) (p : MediaUpdatePayload) (now : Nat) :
    MediaResponse × SysState :=
  match s.store.findMedia mid with
  | none => ({ statusCode := 404, body := none, location := none }, s)
  | some m =>
      let m' := { m with url := applyScalarField m.url p.url
                         type := applyScalarField m.type p.type
                         alt_text := (match p.alt_text with
                                      | some v => v
                                      | none => m.alt_text)
                         is_primary := applyScalarField m.is_primary p.is_primary
                         updated_at := now }
      ({ statusCode := 200, body := some m', location := none },
       { s with store :=
          { s.store with mediaRows := updateRow MediaRec.id s.store.mediaRows mid (fun _ => m') } })

/-- DELETE `/media/{media_id}` (`delete_media`, `src/main.py` lines
342-357): 404 when absent, 400 when `db_media.items` is nonempty (some
item's join rows reference it), otherwise delete and 204. -/
def delete_media (s : SysState) (mid : Nat) : DeleteResponse × SysState :=
  match s.store.findMedia mid with
  | none => ({ statusCode := 404 }, s)
  | some _ =>
      if s.store.items.any (fun it => it.media_ids.contains mid) then
        ({ statusCode := 400 }, s)
      else
        ({ statusCode := 204 },
         { s with store :=
            { s.store with mediaRows := deleteRow MediaRec.id s.store.mediaRows mid } })

/-- Item creation payload (`ItemCreate`, `src/models/item.py` lines
133-143), with references flattened to ids. Requests omitting `media`
leave it `None`, which the handler would iterate and crash on; this model
covers payloads that supply a (possibly empty) list. -/
structure ItemCreatePayload where
  owner_user_id : Nat
  name : String
  description : String
  status : ItemStatus
  condition : ItemCondition
  price : Dec
  category : Nat
  media : List Nat
deriving Repr, DecidableEq

/-- Response of the item write endpoints. -/
structure ItemResponse where
  statusCode : Nat
  body : Option ItemRec
  location : Option String
deriving Repr, DecidableEq

/-- Row the create handler builds and commits (`ItemORM(...)` at
`src/main.py` lines 400-408; `owner_user_id` has no column in `ItemORM`
and is dropped). -/
def itemRowOfPayload (p : ItemCreatePayload) (newId now : Nat) : ItemRec :=
  { id := newId, name := p.name, description := p.description
    status := p.status, condition := p.condition, price := p.price
    category_id := p.category, media_ids := p.media
    created_at := now, updated_at := now }

/-- POST `/items` (`create_item`, `src/main.py` lines 384-424): 400 when
the referenced category does not exist, 400 when any referenced media
does not exist (the source raises at the first missing one, before any
write); otherwise the row is inserted and committed (line 411), after
which `item_to_read` (line 421) raises a `ValidationError` that escapes
as HTTP 500 — the committed row stays in the store. The 201 branch is
kept as the source writes it but is unreachable. -/
def create_item (s : SysState) (p : ItemCreatePayload) (newId now : Nat) :
    ItemResponse × SysState :=
  match s.store.findCategory p.category with
  | none => ({ statusCode := 400, body := none, location := none }, s)
  | some _ =>
      if p.media.all (fun mid => (s.store.findMedia mid).isSome) then
        match item_to_read (itemRowOfPayload p newId now) with
        | none =>
            ({ statusCode := 500, body := none, location := none },
             { s with store :=
                { s.store with items := s.store.items ++ [itemRowOfPayload p newId now] } })
        | some _ =>
            ({ statusCode := 201, body := some (itemRowOfPayload p newId now),
               location := some ("/items/" ++ toString newId) },
             { s with store :=
                { s.store with items := s.store.items ++ [itemRowOfPayload p newId now] } })
      else
        ({ statusCode := 400, body := none, location := none }, s)

/-- Partial item update (`ItemUpdate`, `src/models/item.py` lines
150-163): outer `Option` is presence of the field in the request body
(pydantic `exclude_unset`), inner `Option` distinguishes an explicit
JSON null from a value. -/
structure ItemUpdatePayload where
  name : Option (Option String)
  description : Option (Option String)
  status : Option (Option ItemStatus)
  condition : Option (Option ItemCondition)
  price : Option (Option Dec)
  category : Option (Option Nat)
  media : Option (Option (List Nat))
deriving Repr, DecidableEq

/-- Category part of the PATCH handler (`src/main.py` lines 528-533):
`none` when the request names a category that does not exist (HTTP 400),
otherwise the category id the item ends up with. A field that is absent
or explicitly null leaves the current reference. -/
def resolveCategoryField (st : Store) (cur : Nat) : Option (Option Nat) → Option Nat
  | some (some cid) => if (st.findCategory cid).isSome then some cid else none
  | _ => some cur

/-- Media part of the PATCH handler (`src/main.py` lines 535-546): `none`
when some requested media id does not exist (HTTP 400), otherwise the
media list the item ends up with — the requested list when one is given,
the empty list when the field is an explicit null, the current list when
the field is absent. -/
def resolveMediaField (st : Store) (cur : List Nat) : Option (Option (List Nat)) → Option (List Nat)
  | some (some ms) => if ms.all (fun mid => (st.findMedia mid).isSome) then some ms else none
  | some none => some []
  | none => some cur

/-- Row state after the PATCH handler applied the payload (`src/main.py`
lines 515-548): scalar fields only when present and non-null, the
resolved category id, the resolved media list, and a refreshed
`updated_at`. -/
def patchedItem (it : ItemRec) (p : ItemUpdatePayload) (catId : Nat) (mediaIds : List Nat)
    (now : Nat) : ItemRec :=
  { it with
    name := applyScalarField it.name p.name
    description := applyScalarField it.description p.description
    status := applyScalarField it.status p.status
    condition := applyScalarField it.condition p.condition
    price := applyScalarField it.price p.price
    category_id := catId
    media_ids := mediaIds
    updated_at := now }

/-- PATCH `/items/{item_id}` (`update_item`, `src/main.py` lines
504-561). Scalar fields are applied only when present and non-null; a
present `category` is checked for existence (400 when missing, aborting
before commit); a present `media` — even an explicit null — replaces the
whole media list, an explicit null yielding the empty list; `updated_at`
is always refreshed; check failures abort before the commit, leaving the
store unchanged. When the checks pass the mutation is committed (line
549), after which `item_to_read` (line 559) raises a `ValidationError`
that escapes as HTTP 500 — the committed mutation stays in the store.
The 200 branch is kept as the source writes it but is unreachable. -/
def update_item (s : SysState) (iid : Nat) (p : ItemUpdatePayload) (now : Nat) :
    ItemResponse × SysState :=
  match s.store.findItem iid with
  | none => ({ statusCode := 404, body := none, location := none }, s)
  | some it =>
      match resolveCategoryField s.store it.category_id p.category with
      | none => ({ statusCode := 400, body := none, location := none }, s)
      | some cat_id =>
          match resolveMediaField s.store it.media_ids p.media with
          | none => ({ statusCode := 400, body := none, location := none }, s)
          | some mediaIds =>
              match item_to_read (patchedItem it p cat_id mediaIds now) with
              | none =>
                  ({ statusCode := 500, body := none, location := none },
                   { s with store :=
                      { s.store with items :=
                          (updateRow ItemRec.id s.store.items iid
                            (fun _ => patchedItem it p cat_id mediaIds now)) } })
              | some _ =>
                  ({ statusCode := 200, body := some (patchedItem it p cat_id mediaIds now),
                     location := none },
                   { s with store :=
                      { s.store with items :=
                          (updateRow ItemRec.id s.store.items iid
                            (fun _ => patchedItem it p cat_id mediaIds now)) } })

/-- DELETE `/items/{item_id}` (`delete_item`, `src/main.py` lines
564-572). -/
def delete_item (s : SysState) (iid : Nat) : DeleteResponse × SysState :=
  match s.store.findItem iid with
  | none => ({ statusCode := 404 }, s)
  | some _ =>
      ({ statusCode := 204 },
       { s with store := { s.store with items := deleteRow ItemRec.id s.store.items iid } })

/-!
Operational model. One `Op` is one invocation of a state-touching
operation of the service: an HTTP handler of `src/main.py`, or one of the
two phases of the background worker. The purely read-only handlers
(`list_categories`, `list_media`, `list_items`, `get_category`,
`get_media`, `root`) never write any store and are represented by the
read operations included here. Nondeterministic environment inputs
(`uuid4` results, `utcnow` results, request payloads) are parameters of
the operation.
-/

/-- One operation of the running service. -/
inductive Op where
  | opCreateCategory (p : CategoryCreatePayload) (newId now : Nat)
  | opUpdateCategory (cid : Nat) (p : CategoryUpdatePayload) (now : Nat)
  | opDeleteCategory (cid : Nat)
  | opCreateMedia (p : MediaCreatePayload) (newId now : Nat)
  | opUpdateMedia (mid : Nat) (p : MediaUpdatePayload) (now : Nat)
  | opDeleteMedia (mid : Nat)
  | opCreateItem (p : ItemCreatePayload) (newId now : Nat)
  | opUpdateItem (iid : Nat) (p : ItemUpdatePayload) (now : Nat)
  | opDeleteItem (iid : Nat)
  | opGetItem (iid : Nat) (ifNoneMatch : Option String)
  | opPublishItem (iid jid now : Nat)
  | opGetJob (jid : Nat)
  | opWorkerStart (jid t : Nat)
  | opWorkerFinish (jid t : Nat)

/-- State transition of one operation. The worker phases additionally
move the job id through the task-queue bookkeeping: starting consumes the
scheduled entry and marks the worker running, finishing retires it. -/
def step (s : SysState) : Op → SysState
  | .opCreateCategory p newId now => (create_category s p newId now).2
  | .opUpdateCategory cid p now => (update_category s cid p now).2
  | .opDeleteCategory cid => (delete_category s cid).2
  | .opCreateMedia p newId now => (create_media s p newId now).2
  | .opUpdateMedia mid p now => (update_media s mid p now).2
  | .opDeleteMedia mid => (delete_media s mid).2
  | .opCreateItem p newId now => (create_item s p newId now).2
  | .opUpdateItem iid p now => (update_item s iid p now).2
  | .opDeleteItem iid => (delete_item s iid).2
  | .opGetItem iid inm => (get_item s iid inm).2
  | .opPublishItem iid jid now => (publish_item s iid jid now).2
  | .opGetJob jid => (get_job s jid).2
  | .opWorkerStart jid t =>
      { worker_start s jid t with scheduled := s.scheduled.erase jid
                                  running := jid :: s.running }
  | .opWorkerFinish jid t =>
      { worker_finish s jid t with running := s.running.erase jid }

/-- Environment guarantees under which an operation fires in the real
system: `uuid4` results are fresh, and each worker phase runs exactly
once per scheduled job (FastAPI's `BackgroundTasks` invokes the task a
single time after the response). -/
def Valid (s : SysState) : Op → Prop
  | .opCreateCategory _ newId _ => s.store.findCategory newId = none
  | .opCreateMedia _ newId _ => s.store.findMedia newId = none
  | .opCreateItem _ newId _ => s.store.findItem newId = none
  | .opPublishItem _ jid _ => lookupEntry s.jobs jid = none
  | .opWorkerStart jid _ => jid ∈ s.scheduled
  | .opWorkerFinish jid _ => jid ∈ s.running
  | _ => True

/-- States reachable from process startup by valid operations. -/
inductive Reachable : SysState → Prop where
  | init : Reachable initState
  | next {s : SysState} (op : Op) : Reachable s → Valid s op → Reachable (step s op)

/-- Iterated transition. -/
def steps (s : SysState) (ops : List Op) : SysState :=
  ops.foldl step s

/-- Rank of a job status along the lifecycle order
PENDING → IN_PROGRESS → COMPLETED/FAILED. -/
def statusRank : JobStatus → Nat
  | .pending => 0
  | .in_progress => 1
  | .completed => 2
  | .failed => 2

/-- Registry invariant tying the task-queue bookkeeping to job statuses:
scheduled jobs are PENDING, running jobs are IN_PROGRESS, and no job id
occurs twice across the queue. -/
def JobsInv (s : SysState) : Prop :=
  (∀ jid ∈ s.scheduled, ∃ j, lookupEntry s.jobs jid = some j ∧ j.status = JobStatus.pending) ∧
  (∀ jid ∈ s.running, ∃ j, lookupEntry s.jobs jid = some j ∧ j.status = JobStatus.in_progress) ∧
  (s.scheduled ++ s.running).Nodup

/-! Basic lemmas about the row and registry primitives. -/

theorem lookupEntry_setEntry_self {α : Type} (l : List (Nat × α)) (k : Nat) (v : α) :
    lookupEntry (setEntry l k v) k = some v := by
  induction l with
  | nil => simp [setEntry, lookupEntry]
  | cons a t ih =>
      obtain ⟨k', v'⟩ := a
      by_cases h : k' = k
      · simp [setEntry, h, lookupEntry]
      · simp [setEntry, h, lookupEntry, ih]

theorem lookupEntry_setEntry_ne {α : Type} (l : List (Nat × α)) (k k' : Nat) (v : α)
    (h : k' ≠ k) : lookupEntry (setEntry l k v) k' = lookupEntry l k' := by
  induction l with
  | nil => simp [setEntry, lookupEntry, Ne.symm h]
  | cons a t ih =>
      obtain ⟨k0, v0⟩ := a
      by_cases h0 : k0 = k
      · subst h0
        simp [setEntry, lookupEntry, Ne.symm h]
      · simp [setEntry, h0, lookupEntry, ih]

theorem findRow_key {α : Type} (key : α → Nat) (l : List α) (k : Nat) (a : α)
    (h : findRow key l k = some a) : key a = k := by
  induction l with
  | nil => simp [findRow] at h
  | cons b t ih =>
      rw [findRow] at h
      by_cases hb : key b = k
      · rw [if_pos hb] at h
        injection h with h1
        subst h1
        exact hb
      · rw [if_neg hb] at h
        exact ih h

theorem findRow_deleteRow_self {α : Type} (key : α → Nat) (l : List α) (k : Nat) :
    findRow key (deleteRow key l k) k = none := by
  induction l with
  | nil => rfl
  | cons b t ih =>
      by_cases hb : key b = k
      · simpa [deleteRow, List.filter_cons, hb] using ih
      · simpa [deleteRow, List.filter_cons, hb, findRow] using ih

theorem findRow_updateRow_self {α : Type} (key : α → Nat) (f : α → α) (l : List α)
    (k : Nat) (a : α) (h : findRow key l k = some a) (hf : key (f a) = k) :
    findRow key (updateRow key l k f) k = some (f a) := by
  induction l with
  | nil => simp [findRow] at h
  | cons b t ih =>
      rw [findRow] at h
      by_cases hb : key b = k
      · rw [if_pos hb] at h
        injection h with h1
        subst h1
        rw [updateRow, List.map_cons, if_pos hb, findRow, if_pos hf]
      · rw [if_neg hb] at h
        rw [updateRow, List.map_cons, if_neg hb, findRow, if_neg hb]
        simpa [updateRow] using ih h

theorem findRow_updateRow_ne {α : Type} (key : α → Nat) (f : α → α) (l : List α)
    (k k' : Nat) (h : k' ≠ k) (hf : ∀ a, key a = k → key (f a) = k) :
    findRow key (updateRow key l k f) k' = findRow key l k' := by
  induction l with
  | nil => rfl
  | cons b t ih =>
      by_cases hb : key b = k
      · have hfb : key (f b) = k := hf b hb
        rw [updateRow, List.map_cons, if_pos hb, findRow,
          if_neg (fun hc => (Ne.symm h) (hfb.symm.trans hc)), findRow,
          if_neg (fun hc => (Ne.symm h) (hb.symm.trans hc))]
        simpa [updateRow] using ih
      · rw [updateRow, List.map_cons, if_neg hb, findRow, findRow]
        by_cases hb' : key b = k'
        · rw [if_pos hb', if_pos hb']
        · rw [if_neg hb', if_neg hb']
          simpa [updateRow] using ih

/-! Shape lemmas: the entity endpoints touch only the store component. -/

theorem create_category_state (s : SysState) (p : CategoryCreatePayload) (newId now : Nat) :
    ∃ st, (create_category s p newId now).2 = { s with store := st } :=
  ⟨_, rfl⟩

theorem update_category_state (s : SysState) (cid : Nat) (p : CategoryUpdatePayload) (now : Nat) :
    ∃ st, (update_category s cid p now).2 = { s with store := st } := by
  unfold update_category
  split
  · exact ⟨s.store, rfl⟩
  · exact ⟨_, rfl⟩

theorem delete_category_state (s : SysState) (cid : Nat) :
    ∃ st, (delete_category s cid).2 = { s with store := st } := by
  unfold delete_category
  split
  · exact ⟨s.store, rfl⟩
  · split
    · exact ⟨s.store, rfl⟩
    · exact ⟨_, rfl⟩

theorem create_media_state (s : SysState) (p : MediaCreatePayload) (newId now : Nat) :
    ∃ st, (create_media s p newId now).2 = { s with store := st } :=
  ⟨_, rfl⟩

theorem update_media_state (s : SysState) (mid : Nat) (p : MediaUpdatePayload) (now : Nat) :
    ∃ st, (update_media s mid p now).2 = { s with store := st } := by
  unfold update_media
  split
  · exact ⟨s.store, rfl⟩
  · exact ⟨_, rfl⟩

theorem delete_media_state (s : SysState) (mid : Nat) :
    ∃ st, (delete_media s mid).2 = { s with store := st } := by
  unfold delete_media
  split
  · exact ⟨s.store, rfl⟩
  · split
    · exact ⟨s.store, rfl⟩
    · exact ⟨_, rfl⟩

theorem create_item_state (s : SysState) (p : ItemCreatePayload) (newId now : Nat) :
    ∃ st, (create_item s p newId now).2 = { s with store := st } := by
  unfold create_item
  split
  · exact ⟨s.store, rfl⟩
  · split
    · split
      · exact ⟨_, rfl⟩
      · exact ⟨_, rfl⟩
    · exact ⟨s.store, rfl⟩

theorem update_item_state (s : SysState) (iid : Nat) (p : ItemUpdatePayload) (now : Nat) :
    ∃ st, (update_item s iid p now).2 = { s with store := st } := by
  unfold update_item
  split
  · exact ⟨s.store, rfl⟩
  · split
    · exact ⟨s.store, rfl⟩
    · split
      · exact ⟨s.store, rfl⟩
      · split
        · exact ⟨_, rfl⟩
        · exact ⟨_, rfl⟩

theorem delete_item_state (s : SysState) (iid : Nat) :
    ∃ st, (delete_item s iid).2 = { s with store := st } := by
  unfold delete_item
  split
  · exact ⟨s.store, rfl⟩
  · exact ⟨_, rfl⟩

theorem get_item_state (s : SysState) (iid : Nat) (inm : Option String) :
    (get_item s iid inm).2 = s := by
  unfold get_item
  split
  · rfl
  · split
    · rfl
    · split
      · rfl
      · rfl

theorem get_job_state (s : SysState) (jid : Nat) :
    (get_job s jid).2 = s := by
  cases hj : lookupEntry s.jobs jid <;> simp [get_job, hj]

/-- Registry invariant holds at startup. -/
theorem jobsInv_init : JobsInv initState := by
  simp [JobsInv, initState]

/-- Registry invariant is indifferent to the store component. -/
theorem jobsInv_store_only {s : SysState} (st : Store) (h : JobsInv s) :
    JobsInv { s with store := st } :=
  h

/-- Registry invariant is preserved by every valid operation. -/
theorem jobsInv_step {s : SysState} (op : Op) (h : JobsInv s) (hv : Valid s op) :
    JobsInv (step s op) := by
  obtain ⟨hsch, hrun, hnd⟩ := h
  cases op with
  | opCreateCategory p newId now =>
      obtain ⟨st, hst⟩ := create_category_state s p newId now
      show JobsInv (create_category s p newId now).2
      rw [hst]
      exact jobsInv_store_only st ⟨hsch, hrun, hnd⟩
  | opUpdateCategory cid p now =>
      obtain ⟨st, hst⟩ := update_category_state s cid p now
      show JobsInv (update_category s cid p now).2
      rw [hst]
      exact jobsInv_store_only st ⟨hsch, hrun, hnd⟩
  | opDeleteCategory cid =>
      obtain ⟨st, hst⟩ := delete_category_state s cid
      show JobsInv (delete_category s cid).2
      rw [hst]
      exact jobsInv_store_only st ⟨hsch, hrun, hnd⟩
  | opCreateMedia p newId now =>
      obtain ⟨st, hst⟩ := create_media_state s p newId now
      show JobsInv (create_media s p newId now).2
      rw [hst]
      exact jobsInv_store_only st ⟨hsch, hrun, hnd⟩
  | opUpdateMedia mid p now =>
      obtain ⟨st, hst⟩ := update_media_state s mid p now
      show JobsInv (update_media s mid p now).2
      rw [hst]
      exact jobsInv_store_only st ⟨hsch, hrun, hnd⟩
  | opDeleteMedia mid =>
      obtain ⟨st, hst⟩ := delete_media_state s mid
      show JobsInv (delete_media s mid).2
      rw [hst]
      exact jobsInv_store_only st ⟨hsch, hrun, hnd⟩
  | opCreateItem p newId now =>
      obtain ⟨st, hst⟩ := create_item_state s p newId now
      show JobsInv (create_item s p newId now).2
      rw [hst]
      exact jobsInv_store_only st ⟨hsch, hrun, hnd⟩
  | opUpdateItem iid p now =>
      obtain ⟨st, hst⟩ := update_item_state s iid p now
      show JobsInv (update_item s iid p now).2
      rw [hst]
      exact jobsInv_store_only st ⟨hsch, hrun, hnd⟩
  | opDeleteItem iid =>
      obtain ⟨st, hst⟩ := delete_item_state s iid
      show JobsInv (delete_item s iid).2
      rw [hst]
      exact jobsInv_store_only st ⟨hsch, hrun, hnd⟩
  | opGetItem iid inm =>
      show JobsInv (get_item s iid inm).2
      rw [get_item_state]
      exact ⟨hsch, hrun, hnd⟩
  | opGetJob jid =>
      show JobsInv (get_job s jid).2
      rw [get_job_state]
      exact ⟨hsch, hrun, hnd⟩
  | opPublishItem iid jid now =>
      have hfresh : lookupEntry s.jobs jid = none := hv
      show JobsInv (publish_item s iid jid now).2
      cases hfind : s.store.findItem iid with
      | none =>
          simp only [publish_item, hfind]
          exact ⟨hsch, hrun, hnd⟩
      | some it =>
          simp only [publish_item, hfind]
          refine ⟨?_, ?_, ?_⟩
          · intro j' hj'
            rcases List.mem_cons.mp hj' with rfl | hmem
            · exact ⟨_, lookupEntry_setEntry_self _ _ _, rfl⟩
            · obtain ⟨j2, hl2, hp2⟩ := hsch j' hmem
              have hne : j' ≠ jid := by
                intro e
                rw [e, hfresh] at hl2
                cases hl2
              exact ⟨j2, by rw [lookupEntry_setEntry_ne _ _ _ _ hne]; exact hl2, hp2⟩
          · intro j' hj'
            obtain ⟨j2, hl2, hp2⟩ := hrun j' hj'
            have hne : j' ≠ jid := by
              intro e
              rw [e, hfresh] at hl2
              cases hl2
            exact ⟨j2, by rw [lookupEntry_setEntry_ne _ _ _ _ hne]; exact hl2, hp2⟩
          · refine List.nodup_cons.mpr ⟨?_, hnd⟩
            intro hmem
            rcases List.mem_append.mp hmem with hm | hm
            · obtain ⟨j2, hl2, _⟩ := hsch jid hm
              rw [hfresh] at hl2
              cases hl2
            · obtain ⟨j2, hl2, _⟩ := hrun jid hm
              rw [hfresh] at hl2
              cases hl2
  | opWorkerStart jid t =>
      have hv' : jid ∈ s.scheduled := hv
      obtain ⟨j, hl, hp⟩ := hsch jid hv'
      have hnd0 := hnd
      rw [List.nodup_append] at hnd
      obtain ⟨hndS, _, hdisj⟩ := hnd
      show JobsInv
        { worker_start s jid t with scheduled := s.scheduled.erase jid, running := jid :: s.running }
      simp only [worker_start, hl]
      refine ⟨?_, ?_, ?_⟩
      · intro j' hj'
        obtain ⟨hne, hmem⟩ := hndS.mem_erase_iff.mp hj'
        obtain ⟨j2, hl2, hp2⟩ := hsch j' hmem
        exact ⟨j2, by rw [lookupEntry_setEntry_ne _ _ _ _ hne]; exact hl2, hp2⟩
      · intro j' hj'
        rcases List.mem_cons.mp hj' with rfl | hmem
        · exact ⟨_, lookupEntry_setEntry_self _ _ _, rfl⟩
        · obtain ⟨j2, hl2, hp2⟩ := hrun j' hmem
          have hne : j' ≠ jid := by
            intro e
            exact hdisj (e ▸ hv') hmem
          exact ⟨j2, by rw [lookupEntry_setEntry_ne _ _ _ _ hne]; exact hl2, hp2⟩
      · have h1 : (s.scheduled ++ s.running).Perm (jid :: (s.scheduled.erase jid ++ s.running)) :=
          (List.perm_cons_erase hv').append_right s.running
        exact List.perm_middle.symm.nodup (h1.nodup hnd0)
  | opWorkerFinish jid t =>
      have hv' : jid ∈ s.running := hv
      obtain ⟨j, hl, hip⟩ := hrun jid hv'
      have hnd0 := hnd
      rw [List.nodup_append] at hnd
      obtain ⟨_, hndR, hdisj⟩ := hnd
      show JobsInv { worker_finish s jid t with running := s.running.erase jid }
      simp only [worker_finish, hl]
      have hndGoal : (s.scheduled ++ s.running.erase jid).Nodup :=
        hnd0.sublist ((List.erase_sublist jid s.running).append_left s.scheduled)
      cases hfi : s.store.findItem j.item_id with
      | none =>
          simp only [hfi]
          refine ⟨?_, ?_, hndGoal⟩
          · intro j' hj'
            obtain ⟨j2, hl2, hp2⟩ := hsch j' hj'
            have hne : j' ≠ jid := by
              intro e
              exact hdisj hj' (e ▸ hv')
            exact ⟨j2, by rw [lookupEntry_setEntry_ne _ _ _ _ hne]; exact hl2, hp2⟩
          · intro j' hj'
            obtain ⟨hne, hmem⟩ := hndR.mem_erase_iff.mp hj'
            obtain ⟨j2, hl2, hp2⟩ := hrun j' hmem
            exact ⟨j2, by rw [lookupEntry_setEntry_ne _ _ _ _ hne]; exact hl2, hp2⟩
      | some it =>
          simp only [hfi]
          refine ⟨?_, ?_, hndGoal⟩
          · intro j' hj'
            obtain ⟨j2, hl2, hp2⟩ := hsch j' hj'
            have hne : j' ≠ jid := by
              intro e
              exact hdisj hj' (e ▸ hv')
            exact ⟨j2, by rw [lookupEntry_setEntry_ne _ _ _ _ hne]; exact hl2, hp2⟩
          · intro j' hj'
            obtain ⟨hne, hmem⟩ := hndR.mem_erase_iff.mp hj'
            obtain ⟨j2, hl2, hp2⟩ := hrun j' hmem
            exact ⟨j2, by rw [lookupEntry_setEntry_ne _ _ _ _ hne]; exact hl2, hp2⟩

/-- Registry invariant holds at every reachable state. -/
theorem jobsInv_reachable {s : SysState} (h : Reachable s) : JobsInv s := by
  induction h with
  | init => exact jobsInv_init
  | next op _ hv ih => exact jobsInv_step op ih hv

/-- No single operation removes a registry entry: a stored job id keeps
resolving (possibly to an updated record) after any operation. -/
theorem lookup_step_preserved (s : SysState) (op : Op) (jid : Nat) (j : Job)
    (h : lookupEntry s.jobs jid = some j) :
    ∃ j', lookupEntry (step s op).jobs jid = some j' := by
  cases op with
  | opCreateCategory p newId now =>
      obtain ⟨st, hst⟩ := create_category_state s p newId now
      refine ⟨j, ?_⟩
      show lookupEntry (create_category s p newId now).2.jobs jid = some j
      rw [hst]
      exact h
  | opUpdateCategory cid p now =>
      obtain ⟨st, hst⟩ := update_category_state s cid p now
      refine ⟨j, ?_⟩
      show lookupEntry (update_category s cid p now).2.jobs jid = some j
      rw [hst]
      exact h
  | opDeleteCategory cid =>
      obtain ⟨st, hst⟩ := delete_category_state s cid
      refine ⟨j, ?_⟩
      show lookupEntry (delete_category s cid).2.jobs jid = some j
      rw [hst]
      exact h
  | opCreateMedia p newId now =>
      obtain ⟨st, hst⟩ := create_media_state s p newId now
      refine ⟨j, ?_⟩
      show lookupEntry (create_media s p newId now).2.jobs jid = some j
      rw [hst]
      exact h
  | opUpdateMedia mid p now =>
      obtain ⟨st, hst⟩ := update_media_state s mid p now
      refine ⟨j, ?_⟩
      show lookupEntry (update_media s mid p now).2.jobs jid = some j
      rw [hst]
      exact h
  | opDeleteMedia mid =>
      obtain ⟨st, hst⟩ := delete_media_state s mid
      refine ⟨j, ?_⟩
      show lookupEntry (delete_media s mid).2.jobs jid = some j
      rw [hst]
      exact h
  | opCreateItem p newId now =>
      obtain ⟨st, hst⟩ := create_item_state s p newId now
      refine ⟨j, ?_⟩
      show lookupEntry (create_item s p newId now).2.jobs jid = some j
      rw [hst]
      exact h
  | opUpdateItem iid p now =>
      obtain ⟨st, hst⟩ := update_item_state s iid p now
      refine ⟨j, ?_⟩
      show lookupEntry (update_item s iid p now).2.jobs jid = some j
      rw [hst]
      exact h
  | opDeleteItem iid =>
      obtain ⟨st, hst⟩ := delete_item_state s iid
      refine ⟨j, ?_⟩
      show lookupEntry (delete_item s iid).2.jobs jid = some j
      rw [hst]
      exact h
  | opGetItem iid inm =>
      refine ⟨j, ?_⟩
      show lookupEntry (get_item s iid inm).2.jobs jid = some j
      rw [get_item_state]
      exact h
  | opGetJob jid2 =>
      refine ⟨j, ?_⟩
      show lookupEntry (get_job s jid2).2.jobs jid = some j
      rw [get_job_state]
      exact h
  | opPublishItem iid jid2 now =>
      show ∃ j', lookupEntry (publish_item s iid jid2 now).2.jobs jid = some j'
      cases hfind : s.store.findItem iid with
      | none => exact ⟨j, by simp only [publish_item, hfind]; exact h⟩
      | some it =>
          by_cases he : jid = jid2
          · subst he
            exact ⟨_, by simp only [publish_item, hfind]; exact lookupEntry_setEntry_self _ _ _⟩
          · exact ⟨j, by
              simp only [publish_item, hfind]
              rw [lookupEntry_setEntry_ne _ _ _ _ he]
              exact h⟩
  | opWorkerStart jid2 t =>
      show ∃ j', lookupEntry (worker_start s jid2 t).jobs jid = some j'
      cases hl : lookupEntry s.jobs jid2 with
      | none => exact ⟨j, by simp only [worker_start, hl]; exact h⟩
      | some j2 =>
          by_cases he : jid = jid2
          · subst he
            exact ⟨_, by simp only [worker_start, hl]; exact lookupEntry_setEntry_self _ _ _⟩
          · exact ⟨j, by
              simp only [worker_start, hl]
              rw [lookupEntry_setEntry_ne _ _ _ _ he]
              exact h⟩
  | opWorkerFinish jid2 t =>
      show ∃ j', lookupEntry (worker_finish s jid2 t).jobs jid = some j'
      cases hl : lookupEntry s.jobs jid2 with
      | none => exact ⟨j, by simp only [worker_finish, hl]; exact h⟩
      | some j2 =>
          cases hfi : s.store.findItem j2.item_id with
          | none =>
              by_cases he : jid = jid2
              · subst he
                exact ⟨_, by simp only [worker_finish, hl, hfi]; exact lookupEntry_setEntry_self _ _ _⟩
              · exact ⟨j, by
                  simp only [worker_finish, hl, hfi]
                  rw [lookupEntry_setEntry_ne _ _ _ _ he]
                  exact h⟩
          | some it =>
              by_cases he : jid = jid2
              · subst he
                exact ⟨_, by simp only [worker_finish, hl, hfi]; exact lookupEntry_setEntry_self _ _ _⟩
              · exact ⟨j, by
                  simp only [worker_finish, hl, hfi]
                  rw [lookupEntry_setEntry_ne _ _ _ _ he]
                  exact h⟩

/-- Registry entries survive any sequence of operations. -/
theorem lookup_steps_preserved (ops : List Op) (s : SysState) (jid : Nat) (j : Job)
    (h : lookupEntry s.jobs jid = some j) :
    ∃ j', lookupEntry (steps s ops).jobs jid = some j' := by
  induction ops generalizing s j with
  | nil => exact ⟨j, h⟩
  | cons op rest ih =>
      obtain ⟨j1, h1⟩ := lookup_step_preserved s op jid j h
      exact ih (step s op) j1 h1

/-- C6: no operation of the system ever removes an entry from the Job
Registry; once a job id is stored, every later GET `/jobs/{id}` within
the process returns the (current) Job with HTTP 200 — never 404 — and
the poll endpoint itself leaves the whole state unchanged. -/
theorem get_job_always_succeeds (s : SysState) (ops : List Op) (jid : Nat) (j : Job)
    (h : lookupEntry s.jobs jid = some j) :
    get_job s jid = ({ statusCode := 200, body := some j }, s) ∧
    ∃ j', lookupEntry (steps s ops).jobs jid = some j' ∧
      get_job (steps s ops) jid = ({ statusCode := 200, body := some j' }, steps s ops) := by
  refine ⟨by simp [get_job, h], ?_⟩
  obtain ⟨j', h'⟩ := lookup_steps_preserved ops s jid j h
  exact ⟨j', h', by simp [get_job, h']⟩

/-- C2: across every valid operation from a reachable state, a job's
status either stays put (with the whole record unchanged when terminal)
or advances along PENDING → IN_PROGRESS → COMPLETED/FAILED; a COMPLETED
or FAILED job is never mutated again, and status rank never decreases nor
revisits a status. -/
theorem job_status_transitions (s : SysState) (op : Op) (jid : Nat) (j j' : Job)
    (hs : Reachable s) (hv : Valid s op)
    (h : lookupEntry s.jobs jid = some j)
    (h' : lookupEntry (step s op).jobs jid = some j') :
    (j' = j ∨
      (j.status = JobStatus.pending ∧ j'.status = JobStatus.in_progress) ∨
      (j.status = JobStatus.in_progress ∧
        (j'.status = JobStatus.completed ∨ j'.status = JobStatus.failed))) ∧
    ((j.status = JobStatus.completed ∨ j.status = JobStatus.failed) → j' = j) ∧
    statusRank j.status ≤ statusRank j'.status ∧
    (j'.status ≠ j.status → statusRank j.status < statusRank j'.status) := by
  obtain ⟨hsch, hrun, _⟩ := jobsInv_reachable hs
  have key : j' = j ∨
      (j.status = JobStatus.pending ∧ j'.status = JobStatus.in_progress) ∨
      (j.status = JobStatus.in_progress ∧
        (j'.status = JobStatus.completed ∨ j'.status = JobStatus.failed)) := by
    cases op with
    | opCreateCategory p newId now =>
        obtain ⟨st, hst⟩ := create_category_state s p newId now
        left
        have hj : lookupEntry (create_category s p newId now).2.jobs jid = some j' := h'
        rw [hst, h] at hj
        injection hj with e
        exact e.symm
    | opUpdateCategory cid p now =>
        obtain ⟨st, hst⟩ := update_category_state s cid p now
        left
        have hj : lookupEntry (update_category s cid p now).2.jobs jid = some j' := h'
        rw [hst, h] at hj
        injection hj with e
        exact e.symm
    | opDeleteCategory cid =>
        obtain ⟨st, hst⟩ := delete_category_state s cid
        left
        have hj : lookupEntry (delete_category s cid).2.jobs jid = some j' := h'
        rw [hst, h] at hj
        injection hj with e
        exact e.symm
    | opCreateMedia p newId now =>
        obtain ⟨st, hst⟩ := create_media_state s p newId now
        left
        have hj : lookupEntry (create_media s p newId now).2.jobs jid = some j' := h'
        rw [hst, h] at hj
        injection hj with e
        exact e.symm
    | opUpdateMedia mid p now =>
        obtain ⟨st, hst⟩ := update_media_state s mid p now
        left
        have hj : lookupEntry (update_media s mid p now).2.jobs jid = some j' := h'
        rw [hst, h] at hj
        injection hj with e
        exact e.symm
    | opDeleteMedia mid =>
        obtain ⟨st, hst⟩ := delete_media_state s mid
        left
        have hj : lookupEntry (delete_media s mid).2.jobs jid = some j' := h'
        rw [hst, h] at hj
        injection hj with e
        exact e.symm
    | opCreateItem p newId now =>
        obtain ⟨st, hst⟩ := create_item_state s p newId now
        left
        have hj : lookupEntry (create_item s p newId now).2.jobs jid = some j' := h'
        rw [hst, h] at hj
        injection hj with e
        exact e.symm
    | opUpdateItem iid p now =>
        obtain ⟨st, hst⟩ := update_item_state s iid p now
        left
        have hj : lookupEntry (update_item s iid p now).2.jobs jid = some j' := h'
        rw [hst, h] at hj
        injection hj with e
        exact e.symm
    | opDeleteItem iid =>
        obtain ⟨st, hst⟩ := delete_item_state s iid
        left
        have hj : lookupEntry (delete_item s iid).2.jobs jid = some j' := h'
        rw [hst, h] at hj
        injection hj with e
        exact e.symm
    | opGetItem iid inm =>
        left
        have hj : lookupEntry (get_item s iid inm).2.jobs jid = some j' := h'
        rw [get_item_state, h] at hj
        injection hj with e
        exact e.symm
    | opGetJob jid2 =>
        left
        have hj : lookupEntry (get_job s jid2).2.jobs jid = some j' := h'
        rw [get_job_state, h] at hj
        injection hj with e
        exact e.symm
    | opPublishItem iid jid2 now =>
        have hfresh : lookupEntry s.jobs jid2 = none := hv
        have hne : jid ≠ jid2 := by
          intro e
          rw [e, hfresh] at h
          cases h
        left
        have hj : lookupEntry (publish_item s iid jid2 now).2.jobs jid = some j' := h'
        cases hfind : s.store.findItem iid with
        | none =>
            simp only [publish_item, hfind] at hj
            rw [h] at hj
            injection hj with e
            exact e.symm
        | some it =>
            simp only [publish_item, hfind] at hj
            rw [lookupEntry_setEntry_ne _ _ _ _ hne, h] at hj
            injection hj with e
            exact e.symm
    | opWorkerStart jid2 t =>
        have hv' : jid2 ∈ s.scheduled := hv
        obtain ⟨jS, hlS, hpS⟩ := hsch jid2 hv'
        have hj : lookupEntry (worker_start s jid2 t).jobs jid = some j' := h'
        by_cases he : jid = jid2
        · subst he
          rw [h] at hlS
          injection hlS with e2
          simp only [worker_start, h] at hj
          rw [lookupEntry_setEntry_self] at hj
          injection hj with e
          right
          left
          constructor
          · rw [e2]
            exact hpS
          · rw [← e]
        · left
          simp only [worker_start, hlS] at hj
          rw [lookupEntry_setEntry_ne _ _ _ _ he, h] at hj
          injection hj with e
          exact e.symm
    | opWorkerFinish jid2 t =>
        have hv' : jid2 ∈ s.running := hv
        obtain ⟨jR, hlR, hiR⟩ := hrun jid2 hv'
        have hj : lookupEntry (worker_finish s jid2 t).jobs jid = some j' := h'
        by_cases he : jid = jid2
        · subst he
          rw [h] at hlR
          injection hlR with e2
          simp only [worker_finish, h] at hj
          right
          right
          refine ⟨by rw [e2]; exact hiR, ?_⟩
          cases hfi : s.store.findItem j.item_id with
          | none =>
              rw [hfi] at hj
              rw [lookupEntry_setEntry_self] at hj
              injection hj with e
              right
              rw [← e]
          | some it =>
              rw [hfi] at hj
              rw [lookupEntry_setEntry_self] at hj
              injection hj with e
              left
              rw [← e]
        · left
          simp only [worker_finish, hlR] at hj
          cases hfi : s.store.findItem jR.item_id with
          | none =>
              rw [hfi] at hj
              rw [lookupEntry_setEntry_ne _ _ _ _ he, h] at hj
              injection hj with e
              exact e.symm
          | some it =>
              rw [hfi] at hj
              rw [lookupEntry_setEntry_ne _ _ _ _ he, h] at hj
              injection hj with e
              exact e.symm
  refine ⟨key, ?_, ?_, ?_⟩
  · intro hterm
    rcases key with rfl | ⟨hp, _⟩ | ⟨hp, _⟩
    · rfl
    · rcases hterm with e | e <;> rw [hp] at e <;> exact JobStatus.noConfusion e
    · rcases hterm with e | e <;> rw [hp] at e <;> exact JobStatus.noConfusion e
  · rcases key with rfl | ⟨hp, hq⟩ | ⟨hp, hq⟩
    · exact le_refl _
    · rw [hp, hq]
      decide
    · rcases hq with hq | hq <;> rw [hp, hq] <;> decide
  · intro hne
    rcases key with rfl | ⟨hp, hq⟩ | ⟨hp, hq⟩
    · exact absurd rfl hne
    · rw [hp, hq]
      decide
    · rcases hq with hq | hq <;> rw [hp, hq] <;> decide

/-- C1: one invocation of the publish worker. If the job id is absent
from the registry the whole state is unchanged; if the job exists but its
item is gone when re-resolved, the item store is untouched and the job
ends FAILED with message "Item no longer exists." and timestamp `t2`;
otherwise the item ends ACTIVE with timestamp `t2` and the job ends
COMPLETED with message "Item published successfully.". -/
theorem run_publish_job_spec (s : SysState) (jid t1 t2 : Nat) :
    (lookupEntry s.jobs jid = none → run_publish_job s jid t1 t2 = s) ∧
    (∀ job, lookupEntry s.jobs jid = some job →
      (s.store.findItem job.item_id = none →
        (run_publish_job s jid t1 t2).store = s.store ∧
        lookupEntry (run_publish_job s jid t1 t2).jobs jid =
          some { job with status := JobStatus.failed
                          result_message := some "Item no longer exists."
                          updated_at := t2 }) ∧
      (∀ it, s.store.findItem job.item_id = some it →
        (run_publish_job s jid t1 t2).store.findItem job.item_id =
          some { it with status := ItemStatus.active, updated_at := t2 } ∧
        lookupEntry (run_publish_job s jid t1 t2).jobs jid =
          some { job with status := JobStatus.completed
                          result_message := some "Item published successfully."
                          updated_at := t2 })) := by
  constructor
  · intro h
    unfold run_publish_job
    simp only [worker_start, h, worker_finish]
  · intro job hjob
    constructor
    · intro hfind
      unfold run_publish_job
      simp only [worker_start, hjob, worker_finish, lookupEntry_setEntry_self]
      simp only [hfind]
      refine ⟨trivial, ?_⟩
      rw [lookupEntry_setEntry_self]
    · intro it hfind
      unfold run_publish_job
      simp only [worker_start, hjob, worker_finish, lookupEntry_setEntry_self]
      simp only [hfind]
      constructor
      · have hid : ItemRec.id it = job.item_id := findRow_key ItemRec.id s.store.items _ it hfind
        exact findRow_updateRow_self ItemRec.id _ s.store.items job.item_id it hfind hid
      · rw [lookupEntry_setEntry_self]

/-- Concrete category row for closed checks. -/
def demoCategory : CategoryRec :=
  { id := 1, name := "Electronics", description := "Devices and gadgets"
    created_at := 0, updated_at := 0 }

/-- Concrete item row for closed checks. -/
def demoItem : ItemRec :=
  { id := 7, name := "Wireless Mouse", description := "Ergonomic wireless mouse"
    status := ItemStatus.hidden, condition := ItemCondition.new, price := ⟨1999, 2⟩
    category_id := 1, media_ids := [], created_at := 0, updated_at := 0 }

/-- Concrete job for closed checks, as created by a publish request. -/
def demoJob : Job :=
  { id := 1, item_id := 7, status := JobStatus.pending, created_at := 0, updated_at := 0
    result_message := some "Publish job accepted." }

/-- Concrete state: one category, one item, one pending scheduled job. -/
def faultState : SysState :=
  { store := { categories := [demoCategory], mediaRows := [], items := [demoItem] }
    jobs := [(1, demoJob)]
    scheduled := [1]
    running := [] }

/-- C3 (divergence witness): the `try` block of `run_publish_job` has a
`finally` but no `except` clause, so when the database phase faults the
exception escapes the worker and the job is left IN_PROGRESS — it is not
recorded as FAILED, contrary to the spec's failure semantics. -/
theorem worker_fault_escapes_and_leaves_in_progress :
    (run_publish_job_fault faultState 1 5 6 (some (DbFault.commitFault "db down"))).1 =
      some "db down" ∧
    ∃ j, lookupEntry
        (run_publish_job_fault faultState 1 5 6 (some (DbFault.commitFault "db down"))).2.jobs 1 =
          some j ∧
      j.status = JobStatus.in_progress ∧ j.status ≠ JobStatus.failed := by
  refine ⟨rfl, ⟨{ demoJob with status := JobStatus.in_progress, updated_at := 5 }, ?_, rfl, by decide⟩⟩
  rfl

/-- C4: publishing an existing item returns 202 with a fresh PENDING job
whose `item_id` is the requested item, whose two timestamps coincide,
whose message is "Publish job accepted.", which is stored in the registry
and scheduled; the `Location` header is `/jobs/{job_id}`; and the four
job statuses serialize to the lowercase wire strings. -/
theorem publish_item_accepted (s : SysState) (iid jid now : Nat) (it : ItemRec)
    (h : s.store.findItem iid = some it) :
    ∃ job : Job,
      (publish_item s iid jid now).1 =
        { statusCode := 202, body := some job, location := some ("/jobs/" ++ toString jid) } ∧
      job.id = jid ∧ job.item_id = iid ∧ job.status = JobStatus.pending ∧
      job.created_at = now ∧ job.updated_at = now ∧ job.created_at = job.updated_at ∧
      job.result_message = some "Publish job accepted." ∧
      lookupEntry (publish_item s iid jid now).2.jobs jid = some job ∧
      jid ∈ (publish_item s iid jid now).2.scheduled ∧
      JobStatus.value JobStatus.pending = "pending" ∧
      JobStatus.value JobStatus.in_progress = "in_progress" ∧
      JobStatus.value JobStatus.completed = "completed" ∧
      JobStatus.value JobStatus.failed = "failed" := by
  refine ⟨{ id := jid, item_id := iid, status := JobStatus.pending, created_at := now,
            updated_at := now, result_message := some "Publish job accepted." },
    ?_, rfl, rfl, rfl, rfl, rfl, rfl, rfl, ?_, ?_, rfl, rfl, rfl, rfl⟩
  · simp only [publish_item, h]
  · simp only [publish_item, h]
    exact lookupEntry_setEntry_self _ _ _
  · simp only [publish_item, h]
    exact List.mem_cons_self _ _

/-- C5: publishing an unknown item id returns 404 and the whole process
state — registry, task queue and store — is exactly unchanged, because
the existence check precedes every write. -/
theorem publish_item_item_missing (s : SysState) (iid jid now : Nat)
    (h : s.store.findItem iid = none) :
    publish_item s iid jid now = ({ statusCode := 404, body := none, location := none }, s) := by
  simp only [publish_item, h]

/-- Out-of-range price value -5.00. -/
def badPrice : Dec := ⟨-500, 2⟩

/-- Create payload carrying the out-of-range price. -/
def badPricePayload : ItemCreatePayload :=
  { owner_user_id := 3, name := "Gadget", description := "A gadget"
    status := ItemStatus.active, condition := ItemCondition.new, price := badPrice
    category := 1, media := [] }

/-- Concrete state with one category and empty item table. -/
def priceState : SysState :=
  { store := { categories := [demoCategory], mediaRows := [], items := [] }
    jobs := [], scheduled := [], running := [] }

/-- Item row the create handler stores for `badPricePayload`. -/
def badPriceRow : ItemRec :=
  { id := 9, name := "Gadget", description := "A gadget", status := ItemStatus.active
    condition := ItemCondition.new, price := badPrice, category_id := 1, media_ids := []
    created_at := 5, updated_at := 5 }

/-- C7 (divergence witness): `ItemUpdate.price` carries the pydantic
range constraints but `ItemCreate.price` is a bare `Decimal`, so a create
request with price -5.00 passes validation and the row is committed with
that price — no validation error occurs before the state mutation, and
the store ends up holding an item whose price is outside (0, 999999.99].
(The response the client then sees is 500, not 201: the handler crashes
afterwards in `item_to_read` on the separate `owner_user_id` defect.) -/
theorem create_item_accepts_out_of_range_price :
    itemCreate_price_ok badPrice = true ∧
    itemUpdate_price_ok badPrice = false ∧
    ¬ specPriceInRange badPrice ∧
    (create_item priceState badPricePayload 9 5).1.statusCode = 500 ∧
    (create_item priceState badPricePayload 9 5).2.store.findItem 9 = some badPriceRow ∧
    badPriceRow.price = badPrice ∧ ¬ specPriceInRange badPriceRow.price := by
  exact ⟨rfl, by decide, by decide, by decide, by decide, rfl, by decide⟩

/-- The update-side price validator accepts exactly the prices the spec
describes: at most 2 decimal places and value in (0, 999999.99]. -/
theorem itemUpdate_price_ok_iff (d : Dec) :
    itemUpdate_price_ok d = true ↔ specPriceInRange d := by
  unfold itemUpdate_price_ok specPriceInRange
  simp only [Bool.and_eq_true, decide_eq_true_eq]
  constructor
  · rintro ⟨⟨h1, h2⟩, h3⟩
    have hpow : (0 : Int) < 10 ^ d.places := pow_pos (by norm_num) _
    exact ⟨h1, by linarith, h3⟩
  · rintro ⟨h1, h2, h3⟩
    refine ⟨⟨h1, ?_⟩, h3⟩
    have hle : (10 : Int) ^ d.places ≤ 10 ^ 2 := pow_le_pow_right₀ (by norm_num) h1
    have hm : (1 : Int) ≤ d.mantissa := h2
    nlinarith

/-- Lowercase hexadecimal digit, the alphabet of Python's `hexdigest`. -/
def isHexDigitChar (c : Char) : Prop :=
  (48 ≤ c.toNat ∧ c.toNat ≤ 57) ∨ (97 ≤ c.toNat ∧ c.toNat ≤ 102)

instance (c : Char) : Decidable (isHexDigitChar c) := by
  unfold isHexDigitChar
  infer_instance

theorem hexChar_isHex (m : Nat) (h : m < 16) : isHexDigitChar (hexChar m) := by
  interval_cases m <;> decide

theorem wordHexChars_hex (w : Nat) : ∀ c ∈ wordHexChars w, isHexDigitChar c := by
  intro c hc
  simp only [wordHexChars, List.mem_cons, List.not_mem_nil, or_false] at hc
  rcases hc with rfl | rfl | rfl | rfl | rfl | rfl | rfl | rfl <;>
    exact hexChar_isHex _ (Nat.mod_lt _ (by norm_num))

theorem sha256hexdigest_length (ms : List Nat) : (sha256hexdigest ms).length = 64 := by
  simp [sha256hexdigest, String.length, wordHexChars]

theorem sha256hexdigest_hex (ms : List Nat) :
    ∀ c ∈ (sha256hexdigest ms).data, isHexDigitChar c := by
  intro c hc
  simp only [sha256hexdigest] at hc
  rw [List.mem_flatten] at hc
  obtain ⟨l, hl, hcl⟩ := hc
  rw [List.mem_map] at hl
  obtain ⟨w, _, rfl⟩ := hl
  exact wordHexChars_hex w c hcl

/-- C8 (divergence witness): `generate_item_etag` is indeed a quoted
64-character lowercase hex SHA-256 digest of id and update timestamp, but
the handler never reaches it: `item_to_read` fails validation on the
required `owner_user_id` it is never given, so GET of an existing item is
500 with no body and no ETag header — even when `If-None-Match` carries
the would-be ETag — and neither 304 nor 200 ever occurs. -/
theorem get_item_always_500 :
    item_to_read demoItem = none ∧
    (∃ hx, generate_item_etag demoItem = "\"" ++ hx ++ "\"" ∧ hx.length = 64 ∧
      ∀ c ∈ hx.data, isHexDigitChar c) ∧
    get_item faultState 7 (some (generate_item_etag demoItem)) =
      ({ statusCode := 500, body := none, etag := none }, faultState) ∧
    get_item faultState 7 none =
      ({ statusCode := 500, body := none, etag := none }, faultState) :=
  ⟨rfl,
   ⟨sha256hexdigest (utf8Bytes (toString demoItem.id ++ ":" ++ isoformat demoItem.updated_at)),
    rfl, sha256hexdigest_length _, sha256hexdigest_hex _⟩,
   rfl, rfl⟩

/-- C9: deleting a category or media that exists but is referenced by an
item fails with 400 and changes nothing; deleting an unreferenced one
answers 204 and removes it; deleting an unknown id answers 404 and
changes nothing. -/
theorem delete_reference_protection (s : SysState) (cid mid : Nat) :
    ((s.store.findCategory cid).isSome →
      ((∃ it ∈ s.store.items, it.category_id = cid) →
        delete_category s cid = ({ statusCode := 400 }, s)) ∧
      ((∀ it ∈ s.store.items, it.category_id ≠ cid) →
        (delete_category s cid).1 = { statusCode := 204 } ∧
        (delete_category s cid).2.store.findCategory cid = none)) ∧
    (s.store.findCategory cid = none →
      delete_category s cid = ({ statusCode := 404 }, s)) ∧
    ((s.store.findMedia mid).isSome →
      ((∃ it ∈ s.store.items, mid ∈ it.media_ids) →
        delete_media s mid = ({ statusCode := 400 }, s)) ∧
      ((∀ it ∈ s.store.items, mid ∉ it.media_ids) →
        (delete_media s mid).1 = { statusCode := 204 } ∧
        (delete_media s mid).2.store.findMedia mid = none)) ∧
    (s.store.findMedia mid = none →
      delete_media s mid = ({ statusCode := 404 }, s)) := by
  refine ⟨?_, ?_, ?_, ?_⟩
  · intro hex
    obtain ⟨c, hc⟩ := Option.isSome_iff_exists.mp hex
    constructor
    · intro href
      simp [delete_category, hc, href]
    · intro href
      have hcond : ¬ ∃ x ∈ s.store.items, x.category_id = cid := by
        rintro ⟨x, hx, e⟩
        exact href x hx e
      constructor
      · simp [delete_category, hc, hcond]
      · have hc' : findRow CategoryRec.id s.store.categories cid = some c := hc
        simp [delete_category, hc, hc', hcond, Store.findCategory, findRow_deleteRow_self]
  · intro hc
    simp [delete_category, hc]
  · intro hex
    obtain ⟨m, hm⟩ := Option.isSome_iff_exists.mp hex
    constructor
    · intro href
      simp [delete_media, hm, href]
    · intro href
      have hcond : ¬ ∃ x ∈ s.store.items, mid ∈ x.media_ids := by
        rintro ⟨x, hx, e⟩
        exact href x hx e
      constructor
      · simp [delete_media, hm, hcond]
      · have hm' : findRow MediaRec.id s.store.mediaRows mid = some m := hm
        simp [delete_media, hm, hm', hcond, Store.findMedia, findRow_deleteRow_self]
  · intro hm
    simp [delete_media, hm]

theorem applyScalarField_nullable {α : Type} (cur : α) (f : Option (Option α))
    (h : f = none ∨ f = some none) : applyScalarField cur f = cur := by
  rcases h with rfl | rfl <;> rfl

theorem resolveCategoryField_nullable (st : Store) (cur : Nat) (f : Option (Option Nat))
    (h : f = none ∨ f = some none) : resolveCategoryField st cur f = some cur := by
  rcases h with rfl | rfl <;> rfl

theorem resolveMediaField_nullable (st : Store) (cur : List Nat)
    (f : Option (Option (List Nat))) (h : f = none ∨ f = some none) :
    resolveMediaField st cur f = some (if f = some none then [] else cur) := by
  rcases h with rfl | rfl <;> rfl

/-- C10: on a PATCH of an existing item that reaches the commit (the
category and media checks pass — fields supplied as explicit nulls always
do), the stored row keeps the previous value of every field supplied as
an explicit JSON null among name, description, status, condition, price
and category, while an explicitly null `media` field — and only that —
resets the stored media list to empty, detaching every media reference.
Null and non-null fields may be mixed freely. (The HTTP response is then
500, not a success: the handler crashes in `item_to_read` after the
commit, so the stored effect is exactly this.) -/
theorem update_item_null_semantics (s : SysState) (iid now : Nat) (p : ItemUpdatePayload)
    (it : ItemRec) (h : s.store.findItem iid = some it)
    (hcat : resolveCategoryField s.store it.category_id p.category ≠ none)
    (hmed : resolveMediaField s.store it.media_ids p.media ≠ none) :
    ∃ row, (update_item s iid p now).2.store.findItem iid = some row ∧
      (p.name = some none → row.name = it.name) ∧
      (p.description = some none → row.description = it.description) ∧
      (p.status = some none → row.status = it.status) ∧
      (p.condition = some none → row.condition = it.condition) ∧
      (p.price = some none → row.price = it.price) ∧
      (p.category = some none → row.category_id = it.category_id) ∧
      (p.media = some none → row.media_ids = []) := by
  cases hcatEq : resolveCategoryField s.store it.category_id p.category with
  | none => exact absurd hcatEq hcat
  | some catId =>
  cases hmedEq : resolveMediaField s.store it.media_ids p.media with
  | none => exact absurd hmedEq hmed
  | some mediaIds =>
  have hid : ItemRec.id it = iid := findRow_key _ _ _ _ h
  refine ⟨patchedItem it p catId mediaIds now, ?_, ?_, ?_, ?_, ?_, ?_, ?_, ?_⟩
  · have hread : item_to_read (patchedItem it p catId mediaIds now) = none := rfl
    simp only [update_item, h, hcatEq, hmedEq, hread]
    exact findRow_updateRow_self _ _ _ _ _ h hid
  · intro e
    simp [patchedItem, e, applyScalarField]
  · intro e
    simp [patchedItem, e, applyScalarField]
  · intro e
    simp [patchedItem, e, applyScalarField]
  · intro e
    simp [patchedItem, e, applyScalarField]
  · intro e
    simp [patchedItem, e, applyScalarField]
  · intro e
    rw [e] at hcatEq
    simp only [resolveCategoryField, Option.some.injEq] at hcatEq
    simp only [patchedItem]
    omega
  · intro e
    rw [e] at hmedEq
    simp only [resolveMediaField, Option.some.injEq] at hmedEq
    simp only [patchedItem]
    exact hmedEq.symm

/-- Concrete run of `run_publish_job`: an unknown job id changes nothing,
and for the stored pending job the item is activated and the job
completed. -/
theorem run_publish_job_spec_witness :
    run_publish_job faultState 99 5 6 = faultState ∧
    (run_publish_job faultState 1 5 6).store.findItem 7 =
      some { demoItem with status := ItemStatus.active, updated_at := 6 } ∧
    lookupEntry (run_publish_job faultState 1 5 6).jobs 1 =
      some { demoJob with status := JobStatus.completed
                          result_message := some "Item published successfully."
                          updated_at := 6 } :=
  ⟨(run_publish_job_spec faultState 99 5 6).1 (by decide),
   (((run_publish_job_spec faultState 1 5 6).2 demoJob (by decide)).2 demoItem (by decide)).1,
   (((run_publish_job_spec faultState 1 5 6).2 demoJob (by decide)).2 demoItem (by decide)).2⟩

/-- Concrete item-create payload reproducing `demoItem`. -/
def demoItemPayload : ItemCreatePayload :=
  { owner_user_id := 3, name := "Wireless Mouse", description := "Ergonomic wireless mouse"
    status := ItemStatus.hidden, condition := ItemCondition.new, price := ⟨1999, 2⟩
    category := 1, media := [] }

/-- The concrete state is reachable: create a category, create an item,
publish it. -/
theorem reachable_faultState : Reachable faultState := by
  have h0 : Reachable initState := Reachable.init
  have h1 := Reachable.next (Op.opCreateCategory ⟨"Electronics", "Devices and gadgets"⟩ 1 0) h0
    ((by decide : initState.store.findCategory 1 = none))
  have h2 := Reachable.next (Op.opCreateItem demoItemPayload 7 0) h1
    ((by decide :
      (step initState (Op.opCreateCategory ⟨"Electronics", "Devices and gadgets"⟩ 1 0)).store.findItem 7 = none))
  have h3 := Reachable.next (Op.opPublishItem 7 1 0) h2
    ((by decide :
      lookupEntry (step (step initState (Op.opCreateCategory ⟨"Electronics", "Devices and gadgets"⟩ 1 0))
        (Op.opCreateItem demoItemPayload 7 0)).jobs 1 = none))
  have he : step (step (step initState (Op.opCreateCategory ⟨"Electronics", "Devices and gadgets"⟩ 1 0))
      (Op.opCreateItem demoItemPayload 7 0)) (Op.opPublishItem 7 1 0) = faultState := by decide
  exact he ▸ h3

/-- Record the worker-start phase produces for the concrete job. -/
def demoJobStarted : Job :=
  { demoJob with status := JobStatus.in_progress, updated_at := 5 }

/-- Concrete instance of the transition theorem: starting the worker on
the reachable concrete state moves the pending job to in-progress. -/
theorem job_status_transitions_witness :
    (demoJobStarted = demoJob ∨
      (demoJob.status = JobStatus.pending ∧ demoJobStarted.status = JobStatus.in_progress) ∨
      (demoJob.status = JobStatus.in_progress ∧
        (demoJobStarted.status = JobStatus.completed ∨ demoJobStarted.status = JobStatus.failed))) ∧
    ((demoJob.status = JobStatus.completed ∨ demoJob.status = JobStatus.failed) →
      demoJobStarted = demoJob) ∧
    statusRank demoJob.status ≤ statusRank demoJobStarted.status ∧
    (demoJobStarted.status ≠ demoJob.status →
      statusRank demoJob.status < statusRank demoJobStarted.status) :=
  job_status_transitions faultState (Op.opWorkerStart 1 5) 1 demoJob demoJobStarted
    reachable_faultState ((by decide : (1 : Nat) ∈ faultState.scheduled))
    (by decide) (by decide)

/-- Concrete accepted publish request. -/
theorem publish_item_accepted_witness :
    ∃ job : Job,
      (publish_item faultState 7 42 3).1 =
        { statusCode := 202, body := some job, location := some ("/jobs/" ++ toString 42) } ∧
      job.id = 42 ∧ job.item_id = 7 ∧ job.status = JobStatus.pending ∧
      job.created_at = 3 ∧ job.updated_at = 3 ∧ job.created_at = job.updated_at ∧
      job.result_message = some "Publish job accepted." ∧
      lookupEntry (publish_item faultState 7 42 3).2.jobs 42 = some job ∧
      42 ∈ (publish_item faultState 7 42 3).2.scheduled ∧
      JobStatus.value JobStatus.pending = "pending" ∧
      JobStatus.value JobStatus.in_progress = "in_progress" ∧
      JobStatus.value JobStatus.completed = "completed" ∧
      JobStatus.value JobStatus.failed = "failed" :=
  publish_item_accepted faultState 7 42 3 demoItem (by decide)

/-- Concrete rejected publish request on an empty item table. -/
theorem publish_item_item_missing_witness :
    publish_item priceState 7 42 3 = ({ statusCode := 404, body := none, location := none },
      priceState) :=
  publish_item_item_missing priceState 7 42 3 (by decide)

/-- Concrete persistence of the job registry across a delete and a worker
phase. -/
theorem get_job_always_succeeds_witness :
    get_job faultState 1 = ({ statusCode := 200, body := some demoJob }, faultState) ∧
    ∃ j', lookupEntry
        (steps faultState [Op.opDeleteItem 7, Op.opWorkerStart 1 5]).jobs 1 = some j' ∧
      get_job (steps faultState [Op.opDeleteItem 7, Op.opWorkerStart 1 5]) 1 =
        ({ statusCode := 200, body := some j' },
          steps faultState [Op.opDeleteItem 7, Op.opWorkerStart 1 5]) :=
  get_job_always_succeeds faultState [Op.opDeleteItem 7, Op.opWorkerStart 1 5] 1 demoJob
    (by decide)

/-- Concrete reference-protected and missing-target deletes. -/
theorem delete_reference_protection_witness :
    delete_category faultState 1 = ({ statusCode := 400 }, faultState) ∧
    delete_media faultState 77 = ({ statusCode := 404 }, faultState) :=
  ⟨((delete_reference_protection faultState 1 77).1 (by decide)).1 ⟨demoItem, by decide, by decide⟩,
   (delete_reference_protection faultState 1 77).2.2.2 (by decide)⟩

/-- Mixed patch payload: explicitly null name, condition, category and
media alongside a genuine description and price update and an absent
status. -/
def mixedPayload : ItemUpdatePayload :=
  { name := some none, description := some (some "Updated description")
    status := none, condition := some none, price := some (some ⟨2999, 2⟩)
    category := some none, media := some none }

/-- Concrete mixed-null patch of the demo item. -/
theorem update_item_null_semantics_witness :
    ∃ row, (update_item faultState 7 mixedPayload 9).2.store.findItem 7 = some row ∧
      (mixedPayload.name = some none → row.name = demoItem.name) ∧
      (mixedPayload.description = some none → row.description = demoItem.description) ∧
      (mixedPayload.status = some none → row.status = demoItem.status) ∧
      (mixedPayload.condition = some none → row.condition = demoItem.condition) ∧
      (mixedPayload.price = some none → row.price = demoItem.price) ∧
      (mixedPayload.category = some none → row.category_id = demoItem.category_id) ∧
      (mixedPayload.media = some none → row.media_ids = []) :=
  update_item_null_semantics faultState 7 9 mixedPayload demoItem (by decide)
    (by decide) (by decide)

end Listing
